import Mathlib

/-!
# AgriSuper service worker: request interception, cache generations, background sync

A shallow embedding of `static/js/service-worker.js`.

* The Cache API (`caches`, `cache.put`, `caches.match`, ...) is an explicit value
  `CacheStorage`, a list of named caches in creation order, each an association
  list from request URL to stored response.
* The network is an oracle `Env.fetch` giving, for each request, either a response
  or the error the promise rejects with.
* `async` functions become functions returning `Except JsError α` together with the
  successor state; a rejected promise is `Except.error`.
* Every effect the worker performs is appended to `SW.log`, so that orderings
  ("network first", "no network attempt") are statable.
-/

set_option autoImplicit false

namespace ServiceWorker

/-! ## Platform values -/

/-- A JavaScript exception value, as far as the worker distinguishes them. -/
inductive JsError where
  | TypeError (message : String)
  | DOMException (name : String)
  deriving DecidableEq, Repr

/-- A `Headers` object: header names are stored lower-cased, as the platform does. -/
abbrev Headers := List (String × String)

/-- The method `Headers.get(name)`: the value, or `null` (here `none`) when absent. -/
def Headers.get (h : Headers) (name : String) : Option String :=
  List.lookup name h

/-- A `Response`: status line, headers and body. -/
structure Response where
  status : Nat
  statusText : String
  headers : Headers
  body : String
  deriving DecidableEq, Repr

/-- The getter `response.ok`: the status is in the range 200 to 299. -/
def Response.ok (r : Response) : Bool :=
  decide (200 ≤ r.status) && decide (r.status ≤ 299)

/-- A `Request` as the fetch event delivers it. `pathname` is
`new URL(request.url).pathname` as computed by the platform URL parser. -/
structure Request where
  method : String
  url : String
  pathname : String
  headers : Headers
  deriving DecidableEq, Repr

/-- Worker of `String.prototype.startsWith` on character lists. -/
def listStartsWith : List Char → List Char → Bool
  | _, [] => true
  | [], _ :: _ => false
  | c :: cs, p :: ps => c == p && listStartsWith cs ps

/-- Worker of `String.prototype.includes` on character lists. -/
def listIncludes : List Char → List Char → Bool
  | [], p => listStartsWith [] p
  | c :: cs, p => listStartsWith (c :: cs) p || listIncludes cs p

/-- The method `s.startsWith(p)`. -/
def startsWith (s p : String) : Bool :=
  listStartsWith s.toList p.toList

/-- The method `s.includes(p)`. -/
def includes (s p : String) : Bool :=
  listIncludes s.toList p.toList

/-! ## JSON bodies -/

/-- The primitive JSON values the worker serialises. -/
inductive JsonPrim where
  | str (s : String)
  | bool (b : Bool)
  deriving DecidableEq, Repr

/-- A flat object literal, fields in source order. -/
abbrev JsonObject := List (String × JsonPrim)

/-- Escaping of one character inside a JSON string (quote and backslash; the
strings serialised here contain no control characters). -/
def jsonEscapeChar (c : Char) : List Char :=
  if c = '"' then ['\\', '"'] else if c = '\\' then ['\\', '\\'] else [c]

/-- Serialisation of a string: `JSON.stringify("...")`. -/
def jsonString (s : String) : String :=
  "\"" ++ String.mk (s.toList.flatMap jsonEscapeChar) ++ "\""

/-- Serialisation of a primitive value. -/
def jsonPrim : JsonPrim → String
  | .str s => jsonString s
  | .bool true => "true"
  | .bool false => "false"

/-- Serialisation of the fields of an object, comma separated. -/
def jsonFields : JsonObject → String
  | [] => ""
  | [(k, v)] => jsonString k ++ ":" ++ jsonPrim v
  | (k, v) :: rest => jsonString k ++ ":" ++ jsonPrim v ++ "," ++ jsonFields rest

/-- The function `JSON.stringify` on a flat object. -/
def JSON_stringify (o : JsonObject) : String :=
  "\x7b" ++ jsonFields o ++ "\x7d"

/-! ## Constants of the worker -/

def CACHE_NAME : String := "agrisuper-v1.0.0"

def OFFLINE_URL : String := "/offline.html"

def CRITICAL_ASSETS : List String :=
  [ "/",
    "/offline.html",
    "/static/css/main.css",
    "/static/css/bootstrap.min.css",
    "/static/js/app.js",
    "/static/js/jquery.min.js",
    "/static/icons/icon-192.png",
    "/static/icons/icon-512.png",
    "/templates/dashboard.html" ]

/-! ## The Cache API -/

/-- One named cache: entries keyed by request URL, in insertion order. -/
abbrev Cache := List (String × Response)

/-- The method `cache.match(key)`: the first entry stored under the key. -/
def cacheMatch : Cache → String → Option Response
  | [], _ => none
  | (k, r) :: rest, key => if k = key then some r else cacheMatch rest key

/-- The method `cache.put(key, response)`: entries already stored under the key are
replaced by the new one. -/
def cachePut (c : Cache) (key : String) (r : Response) : Cache :=
  c.filter (fun e => e.1 != key) ++ [(key, r)]

/-- Number of entries a cache holds under a key. -/
def cacheCount (c : Cache) (key : String) : Nat :=
  (c.filter (fun e => e.1 == key)).length

/-- The `caches` object: the named caches of the origin, in creation order. -/
abbrev CacheStorage := List (String × Cache)

/-- The method `caches.keys()`. -/
def cachesKeys (cs : CacheStorage) : List String :=
  cs.map Prod.fst

/-- The cache `caches.open(name)` resolves to, when it exists. -/
def cachesGet : CacheStorage → String → Option Cache
  | [], _ => none
  | (n, c) :: rest, name => if n = name then some c else cachesGet rest name

/-- The store after `caches.open(name)`: the cache is created empty when absent. -/
def cachesOpen (cs : CacheStorage) (name : String) : CacheStorage :=
  if (cachesGet cs name).isSome then cs else cs ++ [(name, [])]

/-- The store after `caches.delete(name)`. -/
def cachesDelete (cs : CacheStorage) (name : String) : CacheStorage :=
  cs.filter (fun e => e.1 != name)

/-- The method `caches.match(key)`: the caches are searched in creation order and
the first match is returned. -/
def cachesMatch : CacheStorage → String → Option Response
  | [], _ => none
  | (_, c) :: rest, key =>
    match cacheMatch c key with
    | some r => some r
    | none => cachesMatch rest key

/-- The store after `cache.put(key, r)` on the cache `caches.open(name)` resolved to. -/
def cachesPutIn : CacheStorage → String → String → Response → CacheStorage
  | [], _, _, _ => []
  | (n, c) :: rest, name, key, r =>
    if n = name then (n, cachePut c key r) :: rest
    else (n, c) :: cachesPutIn rest name key r

/-! ## Worker state and environment -/

/-- The effects the worker performs, in the order it starts them. -/
inductive Op where
  | fetch (url : String)
  | cachesMatch (key : String)
  | cachesOpen (name : String)
  | cachePut (name key : String)
  | cachesKeys
  | cachesDelete (name : String)
  | skipWaiting
  | clientsClaim
  deriving DecidableEq, Repr

/-- What the worker can observe and change: the cache store, and the log of the
effects performed so far. -/
structure SW where
  caches : CacheStorage
  log : List Op
  deriving DecidableEq, Repr

/-- Append one effect to the log. -/
def SW.record (st : SW) (op : Op) : SW :=
  { st with log := st.log ++ [op] }

/-- The environment of one handler run: the outcome of the network fetch of each
request, and whether `caches.open` and `cache.put` reject. -/
structure Env where
  fetch : Request → Except JsError Response
  openError : Option JsError
  putError : Option JsError

/-! ## Fetch strategies -/

/-- The bilingual message of the offline error body. -/
def OFFLINE_MESSAGE : String :=
  "आप ऑफ़लाइन हैं। कृपया इंटरनेट कनेक्शन जांचें। You are offline. Please check your internet connection."

/-- The object literal serialised into the offline error body. -/
def offlineErrorObject : JsonObject :=
  [ ("error", .str "Offline"),
    ("message", .str OFFLINE_MESSAGE),
    ("cached", .bool false) ]

/-- The error response built at the end of `networkFirstStrategy`. -/
def offlineErrorResponse : Response :=
  { status := 503
    statusText := "Service Unavailable"
    headers := [("content-type", "application/json")]
    body := JSON_stringify offlineErrorObject }

/-- The response built in the `catch` block of `cacheFirstStrategy`; a string body
gets the platform default content type. -/
def cacheFirstErrorResponse : Response :=
  { status := 503
    statusText := "Service Unavailable"
    headers := [("content-type", "text/plain;charset=UTF-8")]
    body := "Offline - No cached version available" }

/-- The exception raised by `request.headers.get('accept').includes(...)` when the
request carries no Accept header. -/
def nullIncludesError : JsError :=
  .TypeError "Cannot read properties of null (reading 'includes')"

/-- The write-through block shared by both strategies after a fetch resolved with
`resp`: `if (status === 200) { cache = await caches.open(CACHE_NAME); cache.put(...) }`.
The result is `error` when the awaited `caches.open` rejects; `cache.put` is not
awaited, so its rejection changes neither the control flow nor the store. The store
is given as it is once the started write has settled. -/
def writeThrough (env : Env) (st : SW) (req : Request) (resp : Response) :
    Except JsError Unit × SW :=
  if resp.status = 200 then
    let st1 := st.record (.cachesOpen CACHE_NAME)
    match env.openError with
    | some e => (.error e, st1)
    | none =>
      let st2 := { st1 with caches := cachesOpen st1.caches CACHE_NAME }
      let st3 := st2.record (.cachePut CACHE_NAME req.url)
      match env.putError with
      | some _ => (.ok (), st3)
      | none => (.ok (), { st3 with caches := cachesPutIn st3.caches CACHE_NAME req.url resp })
  else (.ok (), st)

/-- The `catch` block of `networkFirstStrategy`. -/
def networkFirstCatch (st : SW) (req : Request) : Except JsError Response × SW :=
  let st1 := st.record (.cachesMatch req.url)
  match cachesMatch st.caches req.url with
  | some cached => (.ok cached, st1)
  | none =>
    match Headers.get req.headers "accept" with
    | none => (.error nullIncludesError, st1)
    | some accept =>
      if includes accept "text/html" then
        let st2 := st1.record (.cachesMatch OFFLINE_URL)
        match cachesMatch st.caches OFFLINE_URL with
        | some offline => (.ok offline, st2)
        | none => (.ok offlineErrorResponse, st2)
      else (.ok offlineErrorResponse, st1)

/-- The function `networkFirstStrategy(request)`. -/
def networkFirstStrategy (env : Env) (st : SW) (req : Request) :
    Except JsError Response × SW :=
  let st1 := st.record (.fetch req.url)
  match env.fetch req with
  | .error _ => networkFirstCatch st1 req
  | .ok resp =>
    match writeThrough env st1 req resp with
    | (.error _, st2) => networkFirstCatch st2 req
    | (.ok _, st2) => (.ok resp, st2)

/-- The function `cacheFirstStrategy(request)`. -/
def cacheFirstStrategy (env : Env) (st : SW) (req : Request) :
    Except JsError Response × SW :=
  let st1 := st.record (.cachesMatch req.url)
  match cachesMatch st.caches req.url with
  | some cached => (.ok cached, st1)
  | none =>
    let st2 := st1.record (.fetch req.url)
    match env.fetch req with
    | .error _ => (.ok cacheFirstErrorResponse, st2)
    | .ok resp =>
      match writeThrough env st2 req resp with
      | (.error _, st3) => (.ok cacheFirstErrorResponse, st3)
      | (.ok _, st3) => (.ok resp, st3)

/-! ## The fetch listener -/

/-- The two resolution strategies. -/
inductive Strategy where
  | networkFirst
  | cacheFirst
  deriving DecidableEq, Repr

/-- What the fetch listener did with the event. -/
inductive FetchOutcome where
  /-- The listener returned without `event.respondWith`: the browser handles the
  request itself, over the network. -/
  | notHandled
  /-- The listener threw before calling `event.respondWith`. -/
  | threw (e : JsError)
  /-- The listener called `event.respondWith` with the named strategy, whose promise
  settled with `result`. -/
  | respondWith (s : Strategy) (result : Except JsError Response)
  deriving Repr

/-- Run a strategy. -/
def Strategy.run (s : Strategy) (env : Env) (st : SW) (req : Request) :
    Except JsError Response × SW :=
  match s with
  | .networkFirst => networkFirstStrategy env st req
  | .cacheFirst => cacheFirstStrategy env st req

/-- `event.respondWith(strategy(request))`. -/
def respondWith (s : Strategy) (env : Env) (st : SW) (req : Request) : FetchOutcome × SW :=
  (.respondWith s (s.run env st req).1, (s.run env st req).2)

/-- The `fetch` event listener. -/
def fetchListener (env : Env) (st : SW) (req : Request) : FetchOutcome × SW :=
  if req.method ≠ "GET" then (.notHandled, st)
  else if startsWith req.pathname "/api/" then respondWith .networkFirst env st req
  else if startsWith req.pathname "/static/" then respondWith .cacheFirst env st req
  else
    match Headers.get req.headers "accept" with
    | none => (.threw nullIncludesError, st)
    | some accept =>
      if includes accept "text/html" then respondWith .networkFirst env st req
      else respondWith .cacheFirst env st req

/-! ## Lifecycle: install and activate -/

/-- The request `cache.addAll` builds for a URL string. -/
def Request.ofUrl (url : String) : Request :=
  { method := "GET", url := url, pathname := url, headers := [] }

/-- The fetches of `cache.addAll(urls)`: the promise rejects when a fetch rejects
or resolves with a status outside the ok range; otherwise every response is kept. -/
def addAllFetch (env : Env) : List String → Except JsError (List (String × Response))
  | [] => .ok []
  | url :: rest =>
    match env.fetch (Request.ofUrl url) with
    | .error e => .error e
    | .ok r =>
      if r.ok then
        match addAllFetch env rest with
        | .error e => .error e
        | .ok entries => .ok ((url, r) :: entries)
      else .error (.TypeError "Request failed")

/-- Store the entries fetched by `cache.addAll` into the named cache. -/
def putAll (cs : CacheStorage) (name : String) (entries : List (String × Response)) :
    CacheStorage :=
  entries.foldl (fun acc e => cachesPutIn acc name e.1 e.2) cs

/-- The promise chain of the install listener before its `.catch`:
`caches.open(CACHE_NAME).then(cache => cache.addAll(CRITICAL_ASSETS)).then(() => self.skipWaiting())`.
`cache.addAll` is atomic: nothing is stored unless every asset was fetched. -/
def installChain (env : Env) (st : SW) : Except JsError Unit × SW :=
  let st1 := st.record (.cachesOpen CACHE_NAME)
  match env.openError with
  | some e => (.error e, st1)
  | none =>
    let st2 := { st1 with caches := cachesOpen st1.caches CACHE_NAME }
    let st3 := { st2 with log := st2.log ++ CRITICAL_ASSETS.map Op.fetch }
    match addAllFetch env CRITICAL_ASSETS with
    | .error e => (.error e, st3)
    | .ok entries =>
      match env.putError with
      | some e => (.error e, st3)
      | none =>
        let st4 := { st3 with caches := putAll st3.caches CACHE_NAME entries }
        (.ok (), st4.record .skipWaiting)

/-- The promise the install listener passes to `event.waitUntil`: the chain followed
by `.catch((error) => { console.error(...) })`, whose handler returns normally, so a
rejection of the chain becomes a fulfilled promise. -/
def install (env : Env) (st : SW) : Except JsError Unit × SW :=
  match installChain env st with
  | (.error _, st1) => (.ok (), st1)
  | (.ok v, st1) => (.ok v, st1)

/-- The callback mapped over the cache names by the activate listener. -/
def activateStep (st : SW) (cacheName : String) : SW :=
  if cacheName ≠ CACHE_NAME then
    { caches := cachesDelete st.caches cacheName
      log := st.log ++ [.cachesDelete cacheName] }
  else st

/-- The promise the activate listener passes to `event.waitUntil`:
`caches.keys().then(names => Promise.all(names.map(...))).then(() => self.clients.claim())`. -/
def activate (st : SW) : Except JsError Unit × SW :=
  let st1 := st.record .cachesKeys
  let st2 := (cachesKeys st.caches).foldl activateStep st1
  (.ok (), st2.record .clientsClaim)

/-! ## Background sync -/

/-- A queued offline action. -/
structure PendingAction where
  id : Nat
  url : String
  method : String
  headers : Headers
  body : String
  deriving DecidableEq, Repr

/-- The two storage helpers `syncOfflineData` calls, over a store of type `σ`. -/
structure ActionStore (σ : Type) where
  getPendingActions : σ → Except JsError (List PendingAction)
  removePendingAction : Nat → σ → Except JsError σ

/-- The helpers as they stand in the source, over whatever the store holds:
`getPendingActions` returns `[]` and `removePendingAction` returns `true`, and
neither reads or changes the store. -/
def placeholderStore {σ : Type} : ActionStore σ :=
  { getPendingActions := fun _ => .ok []
    removePendingAction := fun _ db => .ok db }

/-- State of one drain: the store, the replays attempted so far and the calls of
`removePendingAction` made so far, both in order. -/
structure SyncState (σ : Type) where
  db : σ
  attempted : List PendingAction
  removeCalls : List Nat

/-- One iteration of the loop of `syncOfflineData`, with its inner `try`/`catch`. -/
def syncAction {σ : Type} (store : ActionStore σ)
    (replay : PendingAction → Except JsError Response)
    (s : SyncState σ) (action : PendingAction) : SyncState σ :=
  let s1 := { s with attempted := s.attempted ++ [action] }
  match replay action with
  | .error _ => s1
  | .ok response =>
    if response.ok then
      let s2 := { s1 with removeCalls := s1.removeCalls ++ [action.id] }
      match store.removePendingAction action.id s2.db with
      | .error _ => s2
      | .ok db => { s2 with db := db }
    else s1

/-- The function `syncOfflineData()`; `replay` is the outcome of
`fetch(action.url, ...)` for each action. The outer `catch` logs and rethrows. -/
def syncOfflineData {σ : Type} (store : ActionStore σ)
    (replay : PendingAction → Except JsError Response)
    (s : SyncState σ) : Except JsError Unit × SyncState σ :=
  match store.getPendingActions s.db with
  | .error e => (.error e, s)
  | .ok pendingActions => (.ok (), pendingActions.foldl (syncAction store replay) s)

/-- The `sync` event listener: `none` when the tag is not handled, otherwise the
settled promise passed to `event.waitUntil`. -/
def syncListener {σ : Type} (store : ActionStore σ)
    (replay : PendingAction → Except JsError Response)
    (tag : String) (s : SyncState σ) : Option (Except JsError Unit) × SyncState σ :=
  if tag = "sync-offline-data" then
    ((some (syncOfflineData store replay s).1), (syncOfflineData store replay s).2)
  else (none, s)

/-- A drain starts with nothing attempted. -/
def SyncState.start {σ : Type} (db : σ) : SyncState σ :=
  { db := db, attempted := [], removeCalls := [] }

/-- Whether the replay of an action succeeded: the fetch resolved with `response.ok`. -/
def replayOk (replay : PendingAction → Except JsError Response) (a : PendingAction) : Bool :=
  match replay a with
  | .error _ => false
  | .ok response => response.ok

/-! ## Vocabulary of the statements -/

/-- The effects performed between two states of the worker. -/
def newOps (before after : SW) : List Op :=
  after.log.drop before.log.length

/-- Whether an effect is a network fetch. -/
def Op.isFetch : Op → Bool
  | .fetch _ => true
  | _ => false

/-- Whether an effect is a cache lookup. -/
def Op.isCacheLookup : Op → Bool
  | .cachesMatch _ => true
  | _ => false

/-- Number of network attempts among a list of effects. -/
def fetchCount (ops : List Op) : Nat :=
  (ops.filter Op.isFetch).length

/-- The current generation holds exactly one entry under `key`, and it is `r`. -/
def HoldsOnce (cs : CacheStorage) (key : String) (r : Response) : Prop :=
  ∃ c, cachesGet cs CACHE_NAME = some c ∧ cacheCount c key = 1 ∧ cacheMatch c key = some r

/-! ## Concrete inputs -/

/-- The error a failed network fetch rejects with. -/
def fetchFailed : JsError :=
  .TypeError "Failed to fetch"

/-- An environment in which every network fetch fails and the cache store works. -/
def envOffline : Env :=
  { fetch := fun _ => .error fetchFailed, openError := none, putError := none }

/-- An environment in which every network fetch resolves with `r`. -/
def envOnline (r : Response) : Env :=
  { fetch := fun _ => .ok r, openError := none, putError := none }

/-- A worker state with no cache and an empty log. -/
def swEmpty : SW :=
  { caches := [], log := [] }

/-- A response with status 200. -/
def pricesResponse : Response :=
  { status := 200, statusText := "OK"
    headers := [("content-type", "application/json")], body := "[1,2,3]" }

/-- A response with status 204. -/
def noContentResponse : Response :=
  { status := 204, statusText := "No Content", headers := [], body := "" }

/-- A later answer to the same request, again with status 200. -/
def pricesUpdated : Response :=
  { status := 200, statusText := "OK"
    headers := [("content-type", "application/json")], body := "[4,5,6]" }

/-- The worker state after a first successful network-first fetch of the prices. -/
def swAfterFirstFetch : SW :=
  (networkFirstStrategy (envOnline pricesResponse) swEmpty
    { method := "GET", url := "/api/pricing/live", pathname := "/api/pricing/live"
      headers := [("accept", "application/json")] }).2

/-- A GET request for a JSON file outside `/api/` and `/static/`, without an Accept
header. -/
def reqManifestNoAccept : Request :=
  { method := "GET", url := "/manifest.json", pathname := "/manifest.json", headers := [] }

/-- A GET request for an API path. -/
def reqApiPrices : Request :=
  { method := "GET", url := "/api/pricing/live", pathname := "/api/pricing/live"
    headers := [("accept", "application/json")] }

/-- A GET request for a static script. -/
def reqStaticScript : Request :=
  { method := "GET", url := "/static/js/app.js", pathname := "/static/js/app.js"
    headers := [("accept", "*/*")] }

/-- A GET request for an HTML document under `/static/`. -/
def reqStaticPage : Request :=
  { method := "GET", url := "/static/help.html", pathname := "/static/help.html"
    headers := [("accept", "text/html,application/xhtml+xml")] }

/-- A navigation to a page of the application. -/
def reqDashboard : Request :=
  { method := "GET", url := "/dashboard", pathname := "/dashboard"
    headers := [("accept", "text/html,application/xhtml+xml")] }

/-- A POST to an API path. -/
def reqApiPost : Request :=
  { method := "POST", url := "/api/forum/questions", pathname := "/api/forum/questions"
    headers := [("accept", "application/json")] }

/-- The offline page as stored at install time. -/
def offlinePage : Response :=
  { status := 200, statusText := "OK"
    headers := [("content-type", "text/html")], body := "<h1>Offline</h1>" }

/-- A cache store with two earlier generations and the current one. -/
def swThreeGenerations : SW :=
  { caches :=
      [ ("agrisuper-v0.8.0", [("/", offlinePage)]),
        ("agrisuper-v0.9.0", [("/", offlinePage)]),
        (CACHE_NAME, [(OFFLINE_URL, offlinePage)]) ]
    log := [] }

/-- A cache store holding an earlier generation only: the current generation was
never created. -/
def swOldGenerationOnly : SW :=
  { caches := [("agrisuper-v0.9.0", [("/", offlinePage)])], log := [] }

/-- An environment in which every asset can be fetched except the offline page. -/
def envOfflinePageUnreachable : Env :=
  { fetch := fun req => if req.url = "/offline.html" then .error fetchFailed else .ok offlinePage
    openError := none, putError := none }

/-- A response with status 201. -/
def createdResponse : Response :=
  { status := 201, statusText := "Created", headers := [], body := "" }

/-- Three queued actions, in enqueue order. -/
def action1 : PendingAction :=
  { id := 1, url := "/api/forum/questions", method := "POST", headers := [], body := "q1" }

def action2 : PendingAction :=
  { id := 2, url := "/api/forum/questions", method := "POST", headers := [], body := "q2" }

def action3 : PendingAction :=
  { id := 3, url := "/api/forum/answers", method := "POST", headers := [], body := "a1" }

/-- Replay outcomes under which the action with id 2 fails and every other succeeds. -/
def replaySecondFails (a : PendingAction) : Except JsError Response :=
  if a.id = 2 then .error fetchFailed else .ok createdResponse

/-- Replay outcomes under which every action succeeds. -/
def replayAllSucceed (_ : PendingAction) : Except JsError Response :=
  .ok createdResponse

/-- A worker state whose current generation holds the offline page only. -/
def swWithOfflinePage : SW :=
  { caches := [(CACHE_NAME, [(OFFLINE_URL, offlinePage)])], log := [] }

/-- The application script as stored in the cache. -/
def scriptResponse : Response :=
  { status := 200, statusText := "OK"
    headers := [("content-type", "application/javascript")], body := "init()" }

/-- A worker state whose current generation holds the application script. -/
def swWithScript : SW :=
  { caches := [(CACHE_NAME, [("/static/js/app.js", scriptResponse)])], log := [] }

/-- A worker state whose current generation holds a snapshot of the prices. -/
def swWithPrices : SW :=
  { caches := [(CACHE_NAME, [("/api/pricing/live", pricesResponse)])], log := [] }

/-- The error a cache store that cannot be opened rejects with. -/
def quotaExceeded : JsError :=
  .DOMException "QuotaExceededError"

/-- An environment in which every network fetch resolves with `r` and `caches.open`
rejects. -/
def envOpenFails (r : Response) : Env :=
  { fetch := fun _ => .ok r, openError := some quotaExceeded, putError := none }

/-- An environment in which every network fetch resolves with `r`, `caches.open`
resolves and `cache.put` rejects. -/
def envPutFails (r : Response) : Env :=
  { fetch := fun _ => .ok r, openError := none, putError := some quotaExceeded }

/-- A GET request for an API path, without an Accept header. -/
def reqApiNoAccept : Request :=
  { method := "GET", url := "/api/weather/farm", pathname := "/api/weather/farm"
    headers := [] }

/-- The error a storage layer that cannot be read rejects with. -/
def storageUnavailable : JsError :=
  .DOMException "InvalidStateError"

/-- A pending-action store whose load fails. -/
def failingLoadStore : ActionStore (List PendingAction) :=
  { getPendingActions := fun _ => .error storageUnavailable
    removePendingAction := fun actionId q => .ok (q.filter (fun a => a.id != actionId)) }

/-- A pending-action store that loads the queue and whose removal always fails. -/
def failingRemoveStore : ActionStore (List PendingAction) :=
  { getPendingActions := fun q => .ok q
    removePendingAction := fun _ _ => .error storageUnavailable }

/-! ## Routing -/

/-- Routing of a GET request that carries an Accept header, or whose path decides
alone: first match wins among `/api/`, `/static/`, `text/html`, default. -/
theorem fetchListener_routes (env : Env) (st : SW) (req : Request)
    (hget : req.method = "GET") :
    (startsWith req.pathname "/api/" = true →
      fetchListener env st req = respondWith .networkFirst env st req) ∧
    (startsWith req.pathname "/api/" = false → startsWith req.pathname "/static/" = true →
      fetchListener env st req = respondWith .cacheFirst env st req) ∧
    (∀ accept, startsWith req.pathname "/api/" = false →
      startsWith req.pathname "/static/" = false →
      Headers.get req.headers "accept" = some accept →
      fetchListener env st req =
        if includes accept "text/html" then respondWith .networkFirst env st req
        else respondWith .cacheFirst env st req) := by
  refine ⟨?_, ?_, ?_⟩
  · intro h
    simp [fetchListener, hget, h]
  · intro h1 h2
    simp [fetchListener, hget, h1, h2]
  · intro accept h1 h2 h3
    simp [fetchListener, hget, h1, h2, h3]

/-- C1, at the input where the code departs from it: a GET request for
`/manifest.json` without an Accept header matches neither path rule, and the listener
throws a TypeError on `request.headers.get('accept').includes(...)` instead of
resolving the request by cacheFirstStrategy; no strategy runs and no response is
supplied. -/
theorem fetchListener_no_accept_throws :
    reqManifestNoAccept.method = "GET" ∧
    startsWith reqManifestNoAccept.pathname "/api/" = false ∧
    startsWith reqManifestNoAccept.pathname "/static/" = false ∧
    Headers.get reqManifestNoAccept.headers "accept" = none ∧
    fetchListener envOffline swEmpty reqManifestNoAccept
      = (.threw nullIncludesError, swEmpty) ∧
    (fetchListener envOffline swEmpty reqManifestNoAccept).1
      ≠ (respondWith .cacheFirst envOffline swEmpty reqManifestNoAccept).1 := by
  refine ⟨rfl, rfl, rfl, rfl, rfl, ?_⟩
  intro h
  cases h

/-! ## Strategy order -/

theorem newOps_append (st st1 : SW) (ops : List Op) (h : st1.log = st.log ++ ops) :
    newOps st st1 = ops := by
  simp [newOps, h]

theorem networkFirstCatch_log (st : SW) (req : Request) :
    ∃ ops, (networkFirstCatch st req).2.log = st.log ++ Op.cachesMatch req.url :: ops := by
  unfold networkFirstCatch
  cases cachesMatch st.caches req.url with
  | some c => exact ⟨[], by simp [SW.record]⟩
  | none =>
    cases Headers.get req.headers "accept" with
    | none => exact ⟨[], by simp [SW.record]⟩
    | some a =>
      by_cases h : includes a "text/html" = true
      · cases h2 : cachesMatch st.caches OFFLINE_URL with
        | some o => exact ⟨[Op.cachesMatch OFFLINE_URL], by simp [SW.record, h, h2]⟩
        | none => exact ⟨[Op.cachesMatch OFFLINE_URL], by simp [SW.record, h, h2]⟩
      · exact ⟨[], by simp [SW.record, h]⟩

theorem networkFirstCatch_caches (st : SW) (req : Request) :
    (networkFirstCatch st req).2.caches = st.caches := by
  unfold networkFirstCatch
  cases cachesMatch st.caches req.url with
  | some c => rfl
  | none =>
    cases Headers.get req.headers "accept" with
    | none => rfl
    | some a =>
      by_cases h : includes a "text/html" = true
      · cases h2 : cachesMatch st.caches OFFLINE_URL with
        | some o => simp [SW.record, h, h2]
        | none => simp [SW.record, h, h2]
      · simp [SW.record, h]

@[simp] theorem SW.record_log (st : SW) (op : Op) : (st.record op).log = st.log ++ [op] := rfl

@[simp] theorem SW.record_caches (st : SW) (op : Op) : (st.record op).caches = st.caches := rfl

theorem networkFirstStrategy_of_fetch_error (env : Env) (st : SW) (req : Request) (e : JsError)
    (hf : env.fetch req = .error e) :
    networkFirstStrategy env st req = networkFirstCatch (st.record (.fetch req.url)) req := by
  simp only [networkFirstStrategy, hf]

theorem networkFirstStrategy_of_write_error (env : Env) (st st2 : SW) (req : Request)
    (resp : Response) (e : JsError) (hf : env.fetch req = .ok resp)
    (hw : writeThrough env (st.record (.fetch req.url)) req resp = (.error e, st2)) :
    networkFirstStrategy env st req = networkFirstCatch st2 req := by
  simp only [networkFirstStrategy, hf, hw]

theorem networkFirstStrategy_of_write_ok (env : Env) (st st2 : SW) (req : Request)
    (resp : Response) (u : Unit) (hf : env.fetch req = .ok resp)
    (hw : writeThrough env (st.record (.fetch req.url)) req resp = (.ok u, st2)) :
    networkFirstStrategy env st req = (.ok resp, st2) := by
  simp only [networkFirstStrategy, hf, hw]

theorem writeThrough_ok_log (env : Env) (st : SW) (req : Request) (resp : Response)
    (hopen : env.openError = none) :
    (writeThrough env st req resp).1 = .ok () ∧
    ∀ op ∈ newOps st (writeThrough env st req resp).2,
      op.isCacheLookup = false ∧ op.isFetch = false := by
  unfold writeThrough
  by_cases h200 : resp.status = 200
  · cases hput : env.putError with
    | none => simp [h200, hopen, hput, newOps, Op.isCacheLookup, Op.isFetch]
    | some e => simp [h200, hopen, hput, newOps, Op.isCacheLookup, Op.isFetch]
  · simp [h200, newOps]

theorem writeThrough_log (env : Env) (st : SW) (req : Request) (resp : Response) :
    ∃ ops, (writeThrough env st req resp).2.log = st.log ++ ops := by
  unfold writeThrough
  by_cases h200 : resp.status = 200
  · cases hopen : env.openError with
    | some e => exact ⟨[Op.cachesOpen CACHE_NAME], by simp [h200]⟩
    | none =>
      cases hput : env.putError with
      | none => exact ⟨[Op.cachesOpen CACHE_NAME, Op.cachePut CACHE_NAME req.url],
          by simp [h200]⟩
      | some e => exact ⟨[Op.cachesOpen CACHE_NAME, Op.cachePut CACHE_NAME req.url],
          by simp [h200]⟩
  · exact ⟨[], by simp [h200]⟩

theorem networkFirstStrategy_log (env : Env) (st : SW) (req : Request) :
    ∃ rest, (networkFirstStrategy env st req).2.log = st.log ++ Op.fetch req.url :: rest := by
  cases hf : env.fetch req with
  | error e =>
    obtain ⟨ops, h⟩ := networkFirstCatch_log (st.record (.fetch req.url)) req
    rw [networkFirstStrategy_of_fetch_error env st req e hf, h]
    exact ⟨Op.cachesMatch req.url :: ops, by simp⟩
  | ok resp =>
    obtain ⟨ops, h⟩ := writeThrough_log env (st.record (.fetch req.url)) req resp
    rcases hw : writeThrough env (st.record (.fetch req.url)) req resp with ⟨r, st2⟩
    rw [hw] at h
    simp only at h
    cases r with
    | error e =>
      obtain ⟨ops2, h2⟩ := networkFirstCatch_log st2 req
      rw [networkFirstStrategy_of_write_error env st st2 req resp e hf hw, h2, h]
      exact ⟨ops ++ Op.cachesMatch req.url :: ops2, by simp⟩
    | ok u =>
      rw [networkFirstStrategy_of_write_ok env st st2 req resp u hf hw]
      exact ⟨ops, by simp [h]⟩

theorem networkFirstStrategy_success (env : Env) (st : SW) (req : Request) (resp : Response)
    (hf : env.fetch req = .ok resp) (hopen : env.openError = none) :
    (networkFirstStrategy env st req).1 = .ok resp ∧
    ∀ op ∈ newOps st (networkFirstStrategy env st req).2, op.isCacheLookup = false := by
  have hw := writeThrough_ok_log env (st.record (.fetch req.url)) req resp hopen
  obtain ⟨ops, hl⟩ := writeThrough_log env (st.record (.fetch req.url)) req resp
  rcases hwt : writeThrough env (st.record (.fetch req.url)) req resp with ⟨r, st2⟩
  rw [hwt] at hw hl
  simp only at hw hl
  obtain ⟨hr, hops⟩ := hw
  subst hr
  rw [networkFirstStrategy_of_write_ok env st st2 req resp () hf hwt]
  refine ⟨rfl, ?_⟩
  intro op hop
  have hl2 : st2.log = st.log ++ (Op.fetch req.url :: ops) := by simp [hl]
  rw [newOps_append st st2 _ hl2] at hop
  have hl3 : newOps (st.record (.fetch req.url)) st2 = ops :=
    newOps_append _ _ _ hl
  rw [hl3] at hops
  rcases List.mem_cons.mp hop with h | h
  · subst h; rfl
  · exact (hops op h).1

/-- Strategy order: a GET under `/api/` is resolved by networkFirstStrategy and a GET
under `/static/` by cacheFirstStrategy. networkFirstStrategy starts with the network
fetch whatever the cache holds; when `caches.open` does not reject it returns the
network response of a successful fetch and looks into the cache only when the fetch
failed; cacheFirstStrategy, when the cache holds an entry for the request, returns
that entry and makes no network attempt. -/
theorem strategy_order (env : Env) (st : SW) (req : Request) :
    (req.method = "GET" → startsWith req.pathname "/api/" = true →
      fetchListener env st req = (.respondWith .networkFirst
        (networkFirstStrategy env st req).1, (networkFirstStrategy env st req).2)) ∧
    (req.method = "GET" → startsWith req.pathname "/api/" = false →
      startsWith req.pathname "/static/" = true →
      fetchListener env st req = (.respondWith .cacheFirst
        (cacheFirstStrategy env st req).1, (cacheFirstStrategy env st req).2)) ∧
    (∃ rest, newOps st (networkFirstStrategy env st req).2 = Op.fetch req.url :: rest) ∧
    (env.openError = none →
      (∀ resp, env.fetch req = .ok resp → (networkFirstStrategy env st req).1 = .ok resp) ∧
      ((∃ op ∈ newOps st (networkFirstStrategy env st req).2, op.isCacheLookup = true) →
        ∃ e, env.fetch req = .error e)) ∧
    (∀ cached, cachesMatch st.caches req.url = some cached →
      (cacheFirstStrategy env st req).1 = .ok cached ∧
      fetchCount (newOps st (cacheFirstStrategy env st req).2) = 0) := by
  refine ⟨?_, ?_, ?_, ?_, ?_⟩
  · intro hget hapi
    rw [(fetchListener_routes env st req hget).1 hapi]
    rfl
  · intro hget hapi hstatic
    rw [(fetchListener_routes env st req hget).2.1 hapi hstatic]
    rfl
  · obtain ⟨rest, h⟩ := networkFirstStrategy_log env st req
    exact ⟨rest, newOps_append _ _ _ h⟩
  · intro hopen
    refine ⟨fun resp hf => (networkFirstStrategy_success env st req resp hf hopen).1, ?_⟩
    rintro ⟨op, hop, hlook⟩
    cases hf : env.fetch req with
    | error e => exact ⟨e, rfl⟩
    | ok resp =>
      have := (networkFirstStrategy_success env st req resp hf hopen).2 op hop
      rw [this] at hlook
      cases hlook
  · intro cached hc
    simp [cacheFirstStrategy, hc, newOps, fetchCount, Op.isFetch]

/-- Strategy order at concrete inputs: with the script in the cache and the network
up, the cache-first lookup returns the cached script without a network attempt; with
a snapshot of the prices in the cache and the network up, the network-first request
is answered by the network, not by the snapshot. -/
theorem strategy_order_witness :
    cachesMatch swWithScript.caches reqStaticScript.url = some scriptResponse ∧
    (cacheFirstStrategy (envOnline pricesUpdated) swWithScript reqStaticScript).1
      = .ok scriptResponse ∧
    fetchCount (newOps swWithScript
      (cacheFirstStrategy (envOnline pricesUpdated) swWithScript reqStaticScript).2) = 0 ∧
    (envOnline pricesUpdated).openError = none ∧
    cachesMatch swWithPrices.caches reqApiPrices.url = some pricesResponse ∧
    (networkFirstStrategy (envOnline pricesUpdated) swWithPrices reqApiPrices).1
      = .ok pricesUpdated :=
  ⟨rfl,
    ((strategy_order (envOnline pricesUpdated) swWithScript reqStaticScript).2.2.2.2
      scriptResponse rfl).1,
    ((strategy_order (envOnline pricesUpdated) swWithScript reqStaticScript).2.2.2.2
      scriptResponse rfl).2,
    rfl, rfl,
    ((strategy_order (envOnline pricesUpdated) swWithPrices reqApiPrices).2.2.2.1 rfl).1
      pricesUpdated rfl⟩

/-- C2, where the code departs from it: a GET for `/api/pricing/live` while the cache
holds an older snapshot; the network fetch succeeds with status 200 and
`caches.open` rejects. The rejection is raised inside the `try` block, so the `catch`
block written for a failed fetch runs: after the fetch and the failed open the cache
is looked up although the network attempt did not fail, and the caller gets the
older snapshot instead of the fetched response. -/
theorem cache_consulted_after_successful_fetch :
    reqApiPrices.method = "GET" ∧
    startsWith reqApiPrices.pathname "/api/" = true ∧
    (envOpenFails pricesUpdated).fetch reqApiPrices = .ok pricesUpdated ∧
    cachesMatch swWithPrices.caches reqApiPrices.url = some pricesResponse ∧
    (fetchListener (envOpenFails pricesUpdated) swWithPrices reqApiPrices).1
      = .respondWith .networkFirst (.ok pricesResponse) ∧
    newOps swWithPrices
        (networkFirstStrategy (envOpenFails pricesUpdated) swWithPrices reqApiPrices).2
      = [Op.fetch "/api/pricing/live", Op.cachesOpen CACHE_NAME,
          Op.cachesMatch "/api/pricing/live"] ∧
    (∃ op ∈ newOps swWithPrices
        (networkFirstStrategy (envOpenFails pricesUpdated) swWithPrices reqApiPrices).2,
      op.isCacheLookup = true) ∧
    pricesResponse ≠ pricesUpdated := by
  refine ⟨rfl, rfl, rfl, rfl, rfl, rfl, ?_, by decide⟩
  exact ⟨Op.cachesMatch "/api/pricing/live", by decide, rfl⟩

/-! ## Offline round trip -/

/-- C3: when the cache holds R under the request key and the network fetch fails,
networkFirstStrategy returns exactly R and leaves the cache store as it was. -/
theorem offline_round_trip (env : Env) (st : SW) (req : Request) (R : Response)
    (e : JsError) (hcache : cachesMatch st.caches req.url = some R)
    (hnet : env.fetch req = .error e) :
    (networkFirstStrategy env st req).1 = .ok R ∧
    (networkFirstStrategy env st req).2.caches = st.caches := by
  rw [networkFirstStrategy_of_fetch_error env st req e hnet]
  refine ⟨?_, networkFirstCatch_caches _ _⟩
  simp [networkFirstCatch, hcache]

/-- C3 at a concrete input: the prices snapshot is served while offline. -/
theorem offline_round_trip_witness :
    cachesMatch swWithPrices.caches reqApiPrices.url = some pricesResponse ∧
    envOffline.fetch reqApiPrices = .error fetchFailed ∧
    (networkFirstStrategy envOffline swWithPrices reqApiPrices).1 = .ok pricesResponse ∧
    (networkFirstStrategy envOffline swWithPrices reqApiPrices).2.caches
      = swWithPrices.caches :=
  ⟨rfl, rfl, offline_round_trip envOffline swWithPrices reqApiPrices pricesResponse
    fetchFailed rfl rfl⟩

/-! ## Requests that are not GET -/

/-- C10: for a request whose method is not GET the fetch listener returns without
calling `event.respondWith`: neither strategy runs, no response is supplied, and the
worker state (cache store and effect log) is unchanged. -/
theorem non_get_bypass (env : Env) (st : SW) (req : Request) (h : req.method ≠ "GET") :
    fetchListener env st req = (.notHandled, st) := by
  simp [fetchListener, h]

/-- C10 at a concrete input: a POST to an API path is not handled. -/
theorem non_get_bypass_witness :
    reqApiPost.method ≠ "GET" ∧
    fetchListener envOffline swWithPrices reqApiPost = (.notHandled, swWithPrices) :=
  ⟨by decide, non_get_bypass envOffline swWithPrices reqApiPost (by decide)⟩

/-! ## Offline fallbacks -/

theorem networkFirstStrategy_offline_miss (env : Env) (st : SW) (req : Request)
    (accept : String) (e : JsError)
    (hacc : Headers.get req.headers "accept" = some accept)
    (hmiss : cachesMatch st.caches req.url = none)
    (hnet : env.fetch req = .error e) :
    (networkFirstStrategy env st req).1 =
      if includes accept "text/html" then
        match cachesMatch st.caches OFFLINE_URL with
        | some page => .ok page
        | none => .ok offlineErrorResponse
      else .ok offlineErrorResponse := by
  rw [networkFirstStrategy_of_fetch_error env st req e hnet]
  by_cases h : includes accept "text/html" = true
  · cases hp : cachesMatch st.caches OFFLINE_URL with
    | some page => simp [networkFirstCatch, hmiss, hacc, h, hp]
    | none => simp [networkFirstCatch, hmiss, hacc, h, hp]
  · simp [networkFirstCatch, hmiss, hacc, h]

theorem cacheFirstStrategy_offline_miss (env : Env) (st : SW) (req : Request) (e : JsError)
    (hmiss : cachesMatch st.caches req.url = none)
    (hnet : env.fetch req = .error e) :
    (cacheFirstStrategy env st req).1 = .ok cacheFirstErrorResponse := by
  simp [cacheFirstStrategy, hmiss, hnet]

/-- The serialised offline error body, character for character. -/
theorem offlineErrorResponse_body :
    offlineErrorResponse.body =
      "\x7b\"error\":\"Offline\",\"message\":\"आप ऑफ़लाइन हैं। कृपया इंटरनेट कनेक्शन जांचें। You are offline. Please check your internet connection.\",\"cached\":false\x7d" := by
  rfl

/-- C4, as the code has it: a GET request with an Accept header that does not contain
`text/html`, no cache entry and a failing network gets a 503 response. Routed to
networkFirstStrategy (path under `/api/`) it is the JSON error with content type
`application/json` and the fields error, message, cached; routed to
cacheFirstStrategy (any other path) it is the plain text
"Offline - No cached version available". -/
theorem offline_error_response (env : Env) (st : SW) (req : Request) (accept : String)
    (e : JsError) (hget : req.method = "GET")
    (hacc : Headers.get req.headers "accept" = some accept)
    (hhtml : includes accept "text/html" = false)
    (hmiss : cachesMatch st.caches req.url = none)
    (hnet : env.fetch req = .error e) :
    (startsWith req.pathname "/api/" = true →
      (fetchListener env st req).1 = .respondWith .networkFirst (.ok offlineErrorResponse)) ∧
    (startsWith req.pathname "/api/" = false →
      (fetchListener env st req).1
        = .respondWith .cacheFirst (.ok cacheFirstErrorResponse)) ∧
    (offlineErrorResponse.status = 503 ∧
      Headers.get offlineErrorResponse.headers "content-type" = some "application/json" ∧
      offlineErrorResponse.body = JSON_stringify
        [("error", .str "Offline"), ("message", .str OFFLINE_MESSAGE),
          ("cached", .bool false)]) ∧
    (cacheFirstErrorResponse.status = 503 ∧
      cacheFirstErrorResponse.body = "Offline - No cached version available") := by
  obtain ⟨hapi, hstatic, hother⟩ := fetchListener_routes env st req hget
  have hnf := networkFirstStrategy_offline_miss env st req accept e hacc hmiss hnet
  have hcf := cacheFirstStrategy_offline_miss env st req e hmiss hnet
  simp only [hhtml] at hnf
  refine ⟨?_, ?_, ⟨rfl, rfl, rfl⟩, ⟨rfl, rfl⟩⟩
  · intro h
    rw [hapi h]
    simp only [respondWith, Strategy.run]
    rw [hnf]
    rfl
  · intro h
    by_cases hs : startsWith req.pathname "/static/" = true
    · rw [hstatic h hs]
      simp only [respondWith, Strategy.run]
      rw [hcf]
    · simp only [Bool.not_eq_true] at hs
      rw [hother accept h hs hacc]
      simp only [hhtml, respondWith, Strategy.run]
      rw [hcf]
      rfl

/-- C4 (amended) at a concrete input: an API request while offline with an empty
cache gets the JSON error. -/
theorem offline_error_response_witness :
    reqApiPrices.method = "GET" ∧
    Headers.get reqApiPrices.headers "accept" = some "application/json" ∧
    includes "application/json" "text/html" = false ∧
    cachesMatch swEmpty.caches reqApiPrices.url = none ∧
    envOffline.fetch reqApiPrices = .error fetchFailed ∧
    (fetchListener envOffline swEmpty reqApiPrices).1
      = .respondWith .networkFirst (.ok offlineErrorResponse) :=
  ⟨rfl, rfl, rfl, rfl, rfl,
    (offline_error_response envOffline swEmpty reqApiPrices "application/json" fetchFailed
      rfl rfl rfl rfl rfl).1 rfl⟩

/-- C4 as stated fails: a GET for `/static/js/app.js` with `Accept: */*`, no cache
entry and the network down is routed to cacheFirstStrategy, whose 503 response
carries a plain-text body, not the JSON error body, and no JSON content type. -/
theorem offline_error_not_json_on_cache_first :
    reqStaticScript.method = "GET" ∧
    Headers.get reqStaticScript.headers "accept" = some "*/*" ∧
    includes "*/*" "text/html" = false ∧
    cachesMatch swEmpty.caches reqStaticScript.url = none ∧
    envOffline.fetch reqStaticScript = .error fetchFailed ∧
    (fetchListener envOffline swEmpty reqStaticScript).1
      = .respondWith .cacheFirst (.ok cacheFirstErrorResponse) ∧
    Headers.get cacheFirstErrorResponse.headers "content-type" ≠ some "application/json" ∧
    cacheFirstErrorResponse.body ≠ JSON_stringify
      [("error", .str "Offline"), ("message", .str OFFLINE_MESSAGE), ("cached", .bool false)] := by
  refine ⟨rfl, rfl, rfl, rfl, rfl, rfl, by decide, by decide⟩

/-- C5, as the code has it: a GET request whose Accept header contains `text/html`,
with no cache entry of its own, a failing network and the offline page in the cache,
gets the cached offline page when it is routed to networkFirstStrategy (path under
`/api/`, or not under `/static/`); under `/static/` it is routed to
cacheFirstStrategy, which answers with its plain-text 503 response. -/
theorem offline_page_fallback (env : Env) (st : SW) (req : Request) (accept : String)
    (page : Response) (e : JsError) (hget : req.method = "GET")
    (hacc : Headers.get req.headers "accept" = some accept)
    (hhtml : includes accept "text/html" = true)
    (hmiss : cachesMatch st.caches req.url = none)
    (hnet : env.fetch req = .error e)
    (hpage : cachesMatch st.caches OFFLINE_URL = some page) :
    (startsWith req.pathname "/api/" = true ∨ startsWith req.pathname "/static/" = false →
      (fetchListener env st req).1 = .respondWith .networkFirst (.ok page)) ∧
    (startsWith req.pathname "/api/" = false → startsWith req.pathname "/static/" = true →
      (fetchListener env st req).1
        = .respondWith .cacheFirst (.ok cacheFirstErrorResponse)) := by
  obtain ⟨hapi, hstatic, hother⟩ := fetchListener_routes env st req hget
  have hnf := networkFirstStrategy_offline_miss env st req accept e hacc hmiss hnet
  have hcf := cacheFirstStrategy_offline_miss env st req e hmiss hnet
  simp only [hhtml, hpage] at hnf
  refine ⟨?_, ?_⟩
  · intro h
    by_cases ha : startsWith req.pathname "/api/" = true
    · rw [hapi ha]
      simp only [respondWith, Strategy.run]
      rw [hnf]
      rfl
    · simp only [Bool.not_eq_true] at ha
      have hs : startsWith req.pathname "/static/" = false := by
        rcases h with h | h
        · rw [h] at ha; cases ha
        · exact h
      rw [hother accept ha hs hacc]
      simp only [hhtml, respondWith, Strategy.run]
      rw [hnf]
      rfl
  · intro ha hs
    rw [hstatic ha hs]
    simp only [respondWith, Strategy.run]
    rw [hcf]

/-- C5 (amended) at a concrete input: a navigation to `/dashboard` while offline is
answered with the cached offline page. -/
theorem offline_page_fallback_witness :
    reqDashboard.method = "GET" ∧
    Headers.get reqDashboard.headers "accept" = some "text/html,application/xhtml+xml" ∧
    includes "text/html,application/xhtml+xml" "text/html" = true ∧
    cachesMatch swWithOfflinePage.caches reqDashboard.url = none ∧
    envOffline.fetch reqDashboard = .error fetchFailed ∧
    cachesMatch swWithOfflinePage.caches OFFLINE_URL = some offlinePage ∧
    (fetchListener envOffline swWithOfflinePage reqDashboard).1
      = .respondWith .networkFirst (.ok offlinePage) :=
  ⟨rfl, rfl, rfl, rfl, rfl, rfl,
    (offline_page_fallback envOffline swWithOfflinePage reqDashboard
      "text/html,application/xhtml+xml" offlinePage fetchFailed rfl rfl rfl rfl rfl rfl).1
      (Or.inr rfl)⟩

/-- C5 as stated fails: a GET for `/static/help.html` with an Accept header
containing `text/html`, no cache entry of its own, the network down and the offline
page cached is answered by cacheFirstStrategy with the plain-text 503 response, not
with the offline page. -/
theorem offline_page_not_served_on_cache_first :
    reqStaticPage.method = "GET" ∧
    Headers.get reqStaticPage.headers "accept" = some "text/html,application/xhtml+xml" ∧
    includes "text/html,application/xhtml+xml" "text/html" = true ∧
    cachesMatch swWithOfflinePage.caches reqStaticPage.url = none ∧
    envOffline.fetch reqStaticPage = .error fetchFailed ∧
    cachesMatch swWithOfflinePage.caches OFFLINE_URL = some offlinePage ∧
    (fetchListener envOffline swWithOfflinePage reqStaticPage).1
      = .respondWith .cacheFirst (.ok cacheFirstErrorResponse) ∧
    cacheFirstErrorResponse ≠ offlinePage := by
  refine ⟨rfl, rfl, rfl, rfl, rfl, rfl, rfl, by decide⟩

/-! ## Write-through -/

theorem cacheMatch_append_singleton (c : Cache) (key : String) (r : Response)
    (h : ∀ e ∈ c, e.1 ≠ key) : cacheMatch (c ++ [(key, r)]) key = some r := by
  induction c with
  | nil => simp [cacheMatch]
  | cons hd tl ih =>
    obtain ⟨k, v⟩ := hd
    have hk : k ≠ key := h (k, v) (List.mem_cons_self _ _)
    simp only [List.cons_append, cacheMatch, hk, ↓reduceIte]
    exact ih (fun e he => h e (List.mem_cons_of_mem _ he))

theorem cacheMatch_cachePut (c : Cache) (key : String) (r : Response) :
    cacheMatch (cachePut c key r) key = some r := by
  unfold cachePut
  apply cacheMatch_append_singleton
  intro e he
  have := (List.mem_filter.mp he).2
  simpa using this

theorem cacheCount_cachePut (c : Cache) (key : String) (r : Response) :
    cacheCount (cachePut c key r) key = 1 := by
  unfold cacheCount cachePut
  rw [List.filter_append, List.filter_filter]
  have h : List.filter (fun e : String × Response => (e.1 == key) && (e.1 != key)) c = [] := by
    rw [List.filter_eq_nil_iff]
    intro e _
    by_cases hk : e.1 = key <;> simp [hk]
  simp [h]

theorem cachesGet_cachesPutIn (cs : CacheStorage) (name key : String) (r : Response) :
    cachesGet (cachesPutIn cs name key r) name
      = (cachesGet cs name).map (fun c => cachePut c key r) := by
  induction cs with
  | nil => simp [cachesGet, cachesPutIn]
  | cons hd tl ih =>
    obtain ⟨n, c⟩ := hd
    by_cases hn : n = name
    · simp [cachesGet, cachesPutIn, hn]
    · simp [cachesGet, cachesPutIn, hn, ih]

theorem cachesGet_append_self (cs : CacheStorage) (name : String)
    (h : cachesGet cs name = none) : cachesGet (cs ++ [(name, [])]) name = some [] := by
  induction cs with
  | nil => simp [cachesGet]
  | cons hd tl ih =>
    obtain ⟨n, c⟩ := hd
    by_cases hn : n = name
    · simp [cachesGet, hn] at h
    · simp only [cachesGet, hn, ↓reduceIte] at h
      simp only [List.cons_append, cachesGet, hn, ↓reduceIte]
      exact ih h

theorem cachesGet_cachesOpen (cs : CacheStorage) (name : String) :
    ∃ c, cachesGet (cachesOpen cs name) name = some c := by
  unfold cachesOpen
  cases h : cachesGet cs name with
  | some c => exact ⟨c, by simp [h]⟩
  | none => exact ⟨[], by simp [h, cachesGet_append_self cs name h]⟩

theorem cachesMatch_cachesPutIn (cs : CacheStorage) (name key : String) (r : Response)
    (hother : ∀ e ∈ cs, e.1 ≠ name → cacheMatch e.2 key = none)
    (hex : ∃ c, cachesGet cs name = some c) :
    cachesMatch (cachesPutIn cs name key r) key = some r := by
  induction cs with
  | nil =>
    obtain ⟨c, hc⟩ := hex
    simp [cachesGet] at hc
  | cons hd tl ih =>
    obtain ⟨n, c⟩ := hd
    by_cases hn : n = name
    · simp [cachesPutIn, cachesMatch, cacheMatch_cachePut, hn]
    · have hm : cacheMatch c key = none := hother (n, c) (List.mem_cons_self _ _) hn
      have hex2 : ∃ c, cachesGet tl name = some c := by
        obtain ⟨c2, hc2⟩ := hex
        simp only [cachesGet, hn, ↓reduceIte] at hc2
        exact ⟨c2, hc2⟩
      have := ih (fun e he => hother e (List.mem_cons_of_mem _ he)) hex2
      simp only [cachesPutIn, hn, ↓reduceIte, cachesMatch, hm]
      exact this

theorem cachesMatch_none_iff (cs : CacheStorage) (key : String) :
    cachesMatch cs key = none ↔ ∀ e ∈ cs, cacheMatch e.2 key = none := by
  induction cs with
  | nil => simp [cachesMatch]
  | cons hd tl ih =>
    obtain ⟨n, c⟩ := hd
    cases hm : cacheMatch c key with
    | some r => simp [cachesMatch, hm]
    | none => simp [cachesMatch, hm, ih]

theorem mem_cachesOpen (cs : CacheStorage) (name : String) (e : String × Cache)
    (he : e ∈ cachesOpen cs name) : e ∈ cs ∨ e = (name, []) := by
  unfold cachesOpen at he
  split at he
  · exact Or.inl he
  · rcases List.mem_append.mp he with h | h
    · exact Or.inl h
    · exact Or.inr (by simpa using h)

theorem writeThrough_200 (env : Env) (st : SW) (req : Request) (R : Response)
    (h200 : R.status = 200) (hopen : env.openError = none) (hput : env.putError = none) :
    writeThrough env st req R =
      (.ok (), { caches := cachesPutIn (cachesOpen st.caches CACHE_NAME) CACHE_NAME req.url R
                 log := st.log ++ [.cachesOpen CACHE_NAME, .cachePut CACHE_NAME req.url] }) := by
  simp [writeThrough, h200, hopen, hput, SW.record]

theorem writeThrough_other (env : Env) (st : SW) (req : Request) (R : Response)
    (h200 : R.status ≠ 200) : writeThrough env st req R = (.ok (), st) := by
  simp [writeThrough, h200]

theorem holdsOnce_after_put (cs : CacheStorage) (key : String) (R : Response) :
    HoldsOnce (cachesPutIn (cachesOpen cs CACHE_NAME) CACHE_NAME key R) key R := by
  obtain ⟨c, hc⟩ := cachesGet_cachesOpen cs CACHE_NAME
  refine ⟨cachePut c key R, ?_, cacheCount_cachePut c key R, cacheMatch_cachePut c key R⟩
  rw [cachesGet_cachesPutIn, hc]
  rfl

theorem cachesMatch_after_put (cs : CacheStorage) (key : String) (R : Response)
    (hother : ∀ e ∈ cs, e.1 ≠ CACHE_NAME → cacheMatch e.2 key = none) :
    cachesMatch (cachesPutIn (cachesOpen cs CACHE_NAME) CACHE_NAME key R) key = some R := by
  apply cachesMatch_cachesPutIn _ _ _ _ _ (cachesGet_cachesOpen cs CACHE_NAME)
  intro e he hne
  rcases mem_cachesOpen cs CACHE_NAME e he with h | h
  · exact hother e h hne
  · subst h
    exact absurd rfl hne

theorem cacheFirstStrategy_of_write_ok (env : Env) (st st2 : SW) (req : Request)
    (resp : Response) (u : Unit) (hmiss : cachesMatch st.caches req.url = none)
    (hf : env.fetch req = .ok resp)
    (hw : writeThrough env ((st.record (.cachesMatch req.url)).record (.fetch req.url))
      req resp = (.ok u, st2)) :
    cacheFirstStrategy env st req = (.ok resp, st2) := by
  simp only [cacheFirstStrategy, hmiss, hf, hw]

/-- C6, as the code has it: when the network answers R and the cache store accepts
the write, both strategies hand R to the caller; the write-through happens exactly
when `R.status` is 200. Then the current generation holds exactly one entry under
the request key, with content R, whatever it held before (a second fetch overwrites
the first), and `caches.match` returns R as soon as no other generation holds the
key. For every other status, 201 to 299 included, the cache store is left unchanged. -/
theorem write_through (env : Env) (st : SW) (req : Request) (R : Response)
    (hf : env.fetch req = .ok R) (hopen : env.openError = none)
    (hput : env.putError = none) :
    (R.status = 200 →
      ((networkFirstStrategy env st req).1 = .ok R ∧
        HoldsOnce (networkFirstStrategy env st req).2.caches req.url R ∧
        ((∀ e ∈ st.caches, e.1 ≠ CACHE_NAME → cacheMatch e.2 req.url = none) →
          cachesMatch (networkFirstStrategy env st req).2.caches req.url = some R)) ∧
      (cachesMatch st.caches req.url = none →
        (cacheFirstStrategy env st req).1 = .ok R ∧
        HoldsOnce (cacheFirstStrategy env st req).2.caches req.url R ∧
        cachesMatch (cacheFirstStrategy env st req).2.caches req.url = some R)) ∧
    (R.status ≠ 200 →
      ((networkFirstStrategy env st req).1 = .ok R ∧
        (networkFirstStrategy env st req).2.caches = st.caches) ∧
      (cachesMatch st.caches req.url = none →
        (cacheFirstStrategy env st req).1 = .ok R ∧
        (cacheFirstStrategy env st req).2.caches = st.caches)) := by
  refine ⟨?_, ?_⟩
  · intro h200
    refine ⟨?_, ?_⟩
    · rw [networkFirstStrategy_of_write_ok env st _ req R () hf
        (writeThrough_200 env _ req R h200 hopen hput)]
      exact ⟨rfl, holdsOnce_after_put _ _ _, fun h => cachesMatch_after_put _ _ _ h⟩
    · intro hmiss
      rw [cacheFirstStrategy_of_write_ok env st _ req R () hmiss hf
        (writeThrough_200 env _ req R h200 hopen hput)]
      refine ⟨rfl, holdsOnce_after_put _ _ _, cachesMatch_after_put _ _ _ ?_⟩
      intro e he _
      exact (cachesMatch_none_iff st.caches req.url).mp hmiss e he
  · intro h200
    refine ⟨?_, ?_⟩
    · rw [networkFirstStrategy_of_write_ok env st _ req R () hf
        (writeThrough_other env _ req R h200)]
      exact ⟨rfl, rfl⟩
    · intro hmiss
      rw [cacheFirstStrategy_of_write_ok env st _ req R () hmiss hf
        (writeThrough_other env _ req R h200)]
      exact ⟨rfl, rfl⟩

/-- C6 (amended) at a concrete input: a second successful fetch of the prices leaves
one entry under the key, holding the second answer. -/
theorem write_through_witness :
    (envOnline pricesUpdated).fetch reqApiPrices = .ok pricesUpdated ∧
    (envOnline pricesUpdated).openError = none ∧
    (envOnline pricesUpdated).putError = none ∧
    pricesUpdated.status = 200 ∧
    cachesMatch swAfterFirstFetch.caches reqApiPrices.url = some pricesResponse ∧
    (networkFirstStrategy (envOnline pricesUpdated) swAfterFirstFetch reqApiPrices).1
      = .ok pricesUpdated ∧
    HoldsOnce (networkFirstStrategy (envOnline pricesUpdated) swAfterFirstFetch
      reqApiPrices).2.caches reqApiPrices.url pricesUpdated :=
  ⟨rfl, rfl, rfl, rfl, rfl,
    (((write_through (envOnline pricesUpdated) swAfterFirstFetch reqApiPrices pricesUpdated
      rfl rfl rfl).1 rfl).1).1,
    (((write_through (envOnline pricesUpdated) swAfterFirstFetch reqApiPrices pricesUpdated
      rfl rfl rfl).1 rfl).1).2.1⟩

/-- C6 as stated fails: a network response with status 204, inside the range 200 to
299, is handed to the caller but not written through; afterwards the cache store
holds no entry under the request key and `caches.match` finds nothing. -/
theorem write_through_skips_204 :
    200 ≤ noContentResponse.status ∧ noContentResponse.status ≤ 299 ∧
    (envOnline noContentResponse).fetch reqApiPrices = .ok noContentResponse ∧
    (networkFirstStrategy (envOnline noContentResponse) swEmpty reqApiPrices).1
      = .ok noContentResponse ∧
    cachesMatch (networkFirstStrategy (envOnline noContentResponse) swEmpty
      reqApiPrices).2.caches reqApiPrices.url = none ∧
    cachesGet (networkFirstStrategy (envOnline noContentResponse) swEmpty
      reqApiPrices).2.caches CACHE_NAME = none ∧
    (cacheFirstStrategy (envOnline noContentResponse) swEmpty reqStaticScript).1
      = .ok noContentResponse ∧
    cachesMatch (cacheFirstStrategy (envOnline noContentResponse) swEmpty
      reqStaticScript).2.caches reqStaticScript.url = none := by
  refine ⟨by decide, by decide, rfl, rfl, rfl, rfl, rfl, rfl⟩

/-! ## Activation -/

theorem activate_foldl (names : List String) (s : SW) :
    (names.foldl activateStep s).caches
        = s.caches.filter (fun e => decide (e.1 = CACHE_NAME ∨ e.1 ∉ names)) ∧
    (names.foldl activateStep s).log
        = s.log ++ (names.filter (fun n => decide (n ≠ CACHE_NAME))).map Op.cachesDelete := by
  induction names generalizing s with
  | nil => simp
  | cons n tl ih =>
    obtain ⟨ihc, ihl⟩ := ih (activateStep s n)
    simp only [List.foldl_cons]
    rw [ihc, ihl]
    by_cases hn : n = CACHE_NAME
    · subst hn
      refine ⟨?_, by simp [activateStep]⟩
      simp only [activateStep, ne_eq, not_true_eq_false, ↓reduceIte]
      apply List.filter_congr
      intro e _
      by_cases he : e.1 = CACHE_NAME <;> simp [he]
    · refine ⟨?_, by simp [activateStep, hn]⟩
      simp only [activateStep, ne_eq, hn, not_false_eq_true, ↓reduceIte, cachesDelete,
        List.filter_filter]
      apply List.filter_congr
      intro e _
      by_cases he : e.1 = CACHE_NAME
      · have h1 : ¬ CACHE_NAME = n := fun h => hn h.symm
        simp [he, h1]
      · by_cases hen : e.1 = n
        · simp [← hen, he]
        · simp [he, hen]

theorem activate_caches (st : SW) :
    (activate st).2.caches = st.caches.filter (fun e => decide (e.1 = CACHE_NAME)) := by
  simp only [activate, SW.record_caches]
  rw [(activate_foldl (cachesKeys st.caches) (st.record .cachesKeys)).1]
  simp only [SW.record_caches]
  apply List.filter_congr
  intro e he
  have : e.1 ∈ cachesKeys st.caches := List.mem_map_of_mem Prod.fst he
  simp [this]

theorem activate_newOps (st : SW) :
    newOps st (activate st).2
      = Op.cachesKeys ::
          ((cachesKeys st.caches).filter (fun n => decide (n ≠ CACHE_NAME))).map Op.cachesDelete
        ++ [Op.clientsClaim] := by
  apply newOps_append
  simp only [activate, SW.record_log]
  rw [(activate_foldl (cachesKeys st.caches) (st.record .cachesKeys)).2]
  simp

theorem filter_eq_of_nodup (l : List String) (a : String) (h : l.Nodup) :
    l.filter (fun n => decide (n = a)) = if a ∈ l then [a] else [] := by
  induction l with
  | nil => simp
  | cons x tl ih =>
    have htl := ih (List.nodup_cons.mp h).2
    have hx : x ∉ tl := (List.nodup_cons.mp h).1
    by_cases hxa : x = a
    · subst hxa
      simp [List.filter_cons, htl, hx]
    · have : ¬ a = x := fun h2 => hxa h2.symm
      simp [List.filter_cons, hxa, htl, this]

theorem cachesKeys_filter (cs : CacheStorage) (p : String → Bool) :
    cachesKeys (cs.filter (fun e => p e.1)) = (cachesKeys cs).filter p := by
  induction cs with
  | nil => rfl
  | cons hd tl ih =>
    simp only [cachesKeys] at ih
    by_cases h : p hd.1 = true
    · simp [cachesKeys, List.filter_cons, h, ih]
    · simp [cachesKeys, List.filter_cons, h, ih]

theorem cachesGet_filter_self (cs : CacheStorage) (name : String) :
    cachesGet (cs.filter (fun e => decide (e.1 = name))) name = cachesGet cs name := by
  induction cs with
  | nil => rfl
  | cons hd tl ih =>
    obtain ⟨n, c⟩ := hd
    by_cases h : n = name
    · simp [List.filter_cons, h, cachesGet]
    · simp [List.filter_cons, h, cachesGet, ih]

/-- C8, as the code has it: activation deletes every cache whose name differs from
CACHE_NAME and never deletes CACHE_NAME, whose content is untouched. Afterwards
`caches.keys()` is exactly `[CACHE_NAME]` when the current generation existed before
activation, and empty when it did not: activation creates no cache. -/
theorem activate_generations (st : SW) (hnodup : (cachesKeys st.caches).Nodup) :
    (activate st).1 = .ok () ∧
    cachesKeys (activate st).2.caches
      = (if CACHE_NAME ∈ cachesKeys st.caches then [CACHE_NAME] else []) ∧
    (∀ n ∈ cachesKeys st.caches, n ≠ CACHE_NAME →
      Op.cachesDelete n ∈ newOps st (activate st).2 ∧
      n ∉ cachesKeys (activate st).2.caches) ∧
    Op.cachesDelete CACHE_NAME ∉ newOps st (activate st).2 ∧
    cachesGet (activate st).2.caches CACHE_NAME = cachesGet st.caches CACHE_NAME := by
  have hkeys : cachesKeys (activate st).2.caches
      = (cachesKeys st.caches).filter (fun n => decide (n = CACHE_NAME)) := by
    rw [activate_caches]
    exact cachesKeys_filter st.caches (fun n => decide (n = CACHE_NAME))
  refine ⟨rfl, ?_, ?_, ?_, ?_⟩
  · rw [hkeys]
    exact filter_eq_of_nodup _ _ hnodup
  · intro n hn hne
    refine ⟨?_, ?_⟩
    · rw [activate_newOps]
      simp [hn, hne]
    · rw [hkeys]
      simp [hne]
  · rw [activate_newOps]
    simp
  · rw [activate_caches]
    exact cachesGet_filter_self st.caches CACHE_NAME

/-- C8 (amended) at a concrete input: two earlier generations and the current one
before activation, the current one alone after it. -/
theorem activate_generations_witness :
    (cachesKeys swThreeGenerations.caches).Nodup ∧
    cachesKeys (activate swThreeGenerations).2.caches = [CACHE_NAME] ∧
    cachesGet (activate swThreeGenerations).2.caches CACHE_NAME
      = some [(OFFLINE_URL, offlinePage)] :=
  ⟨by decide,
    (activate_generations swThreeGenerations (by decide)).2.1.trans (by decide),
    (activate_generations swThreeGenerations (by decide)).2.2.2.2.trans rfl⟩

/-- C8 as stated fails: when only an earlier generation exists before activation,
`caches.keys()` is empty afterwards, not the one name CACHE_NAME. -/
theorem activate_without_current_generation :
    cachesKeys swOldGenerationOnly.caches = ["agrisuper-v0.9.0"] ∧
    (activate swOldGenerationOnly).1 = .ok () ∧
    cachesKeys (activate swOldGenerationOnly).2.caches = [] ∧
    cachesKeys (activate swOldGenerationOnly).2.caches ≠ [CACHE_NAME] := by
  refine ⟨rfl, rfl, by decide, by decide⟩

/-! ## Installation -/

/-- C9, where the code departs from it: the promise the install listener hands to
`event.waitUntil` is fulfilled in every environment, because the trailing `.catch`
only logs. With the offline page unreachable the chain before the `.catch` rejects,
nothing is stored and `skipWaiting` is not called, yet the install result is a
success. -/
theorem install_swallows_failure :
    (∀ (env : Env) (st : SW), (install env st).1 = .ok ()) ∧
    envOfflinePageUnreachable.fetch (Request.ofUrl "/offline.html") = .error fetchFailed ∧
    "/offline.html" ∈ CRITICAL_ASSETS ∧
    (installChain envOfflinePageUnreachable swEmpty).1 = .error fetchFailed ∧
    (install envOfflinePageUnreachable swEmpty).1 = .ok () ∧
    cachesGet (install envOfflinePageUnreachable swEmpty).2.caches CACHE_NAME = some [] ∧
    Op.skipWaiting ∉ (install envOfflinePageUnreachable swEmpty).2.log := by
  refine ⟨?_, rfl, by decide, rfl, rfl, rfl, by decide⟩
  intro env st
  unfold install
  rcases installChain env st with ⟨r, st1⟩
  cases r <;> rfl

/-! ## Background sync -/

/-- With the helpers as they stand in the source, a drain loads an empty list: it
attempts nothing and changes nothing, whatever the store holds. -/
theorem syncOfflineData_placeholder {σ : Type}
    (replay : PendingAction → Except JsError Response) (s : SyncState σ) :
    syncOfflineData placeholderStore replay s = (.ok (), s) := by
  rfl

theorem syncAction_attempted {σ : Type} (store : ActionStore σ)
    (replay : PendingAction → Except JsError Response) (s : SyncState σ)
    (a : PendingAction) :
    (syncAction store replay s a).attempted = s.attempted ++ [a] ∧
    (syncAction store replay s a).removeCalls
      = if replayOk replay a then s.removeCalls ++ [a.id] else s.removeCalls := by
  unfold syncAction replayOk
  cases replay a with
  | error e => simp
  | ok response =>
    by_cases hok : response.ok = true
    · cases hrm : store.removePendingAction a.id s.db with
      | error e => simp [hok, hrm]
      | ok db => simp [hok, hrm]
    · simp [hok]

theorem sync_foldl_attempted {σ : Type} (store : ActionStore σ)
    (replay : PendingAction → Except JsError Response)
    (l : List PendingAction) (s : SyncState σ) :
    (l.foldl (syncAction store replay) s).attempted = s.attempted ++ l ∧
    (l.foldl (syncAction store replay) s).removeCalls
      = s.removeCalls ++ (l.filter (replayOk replay)).map PendingAction.id := by
  induction l generalizing s with
  | nil => simp
  | cons a tl ih =>
    obtain ⟨h1, h2⟩ := ih (syncAction store replay s a)
    obtain ⟨h3, h4⟩ := syncAction_attempted store replay s a
    simp only [List.foldl_cons]
    rw [h1, h2, h3, h4]
    by_cases hok : replayOk replay a = true
    · exact ⟨by simp, by simp [hok]⟩
    · exact ⟨by simp, by simp [hok]⟩

/-- The loop of `syncOfflineData`, over any storage helpers: every action that
`getPendingActions` returned is attempted exactly once, in the order returned,
whatever the earlier replays and removals did, and `removePendingAction` is called
for exactly the actions whose replay answered ok. -/
theorem syncOfflineData_attempts_loaded {σ : Type} (store : ActionStore σ)
    (replay : PendingAction → Except JsError Response) (s : SyncState σ)
    (pending : List PendingAction) (hload : store.getPendingActions s.db = .ok pending) :
    (syncOfflineData store replay s).2.attempted = s.attempted ++ pending ∧
    (syncOfflineData store replay s).2.removeCalls
      = s.removeCalls ++ (pending.filter (replayOk replay)).map PendingAction.id := by
  simp only [syncOfflineData, hload]
  exact sync_foldl_attempted store replay pending s

/-- C7, where the code departs from it: three actions are queued and a sync event
arrives. `getPendingActions` as shipped returns `[]`, so the drain completes having
attempted none of the three, and `removePendingAction` as shipped removes nothing:
all three stay queued whether their replay would succeed or not. With the second
replay failing the queue is not left holding the second action alone, and the next
drain again attempts nothing. -/
theorem sync_drains_nothing_with_shipped_helpers :
    (syncOfflineData placeholderStore replaySecondFails
      (SyncState.start [action1, action2, action3])).1 = .ok () ∧
    (syncOfflineData placeholderStore replaySecondFails
      (SyncState.start [action1, action2, action3])).2.attempted = [] ∧
    (syncOfflineData placeholderStore replaySecondFails
      (SyncState.start [action1, action2, action3])).2.removeCalls = [] ∧
    (syncOfflineData placeholderStore replaySecondFails
      (SyncState.start [action1, action2, action3])).2.db = [action1, action2, action3] ∧
    replayOk replaySecondFails action1 = true ∧
    replayOk replaySecondFails action2 = false ∧
    replayOk replaySecondFails action3 = true ∧
    (syncOfflineData placeholderStore replaySecondFails
      (SyncState.start [action1, action2, action3])).2.attempted
      ≠ [action1, action2, action3] ∧
    (syncOfflineData placeholderStore replaySecondFails
      (SyncState.start [action1, action2, action3])).2.db ≠ [action2] ∧
    (syncOfflineData placeholderStore replayAllSucceed (SyncState.start
      (syncOfflineData placeholderStore replaySecondFails
        (SyncState.start [action1, action2, action3])).2.db)).2.attempted ≠ [action2] ∧
    (placeholderStore.removePendingAction 1 [action1, action2, action3])
      = .ok [action1, action2, action3] := by
  refine ⟨rfl, rfl, rfl, rfl, rfl, rfl, rfl, by decide, by decide, by decide, rfl⟩

/-! ## Failures of the cache write -/

/-- A rejected `cache.put` is not observed by either strategy: with `caches.open`
resolving, a network response is handed to the caller whatever `cache.put` does. -/
theorem put_failure_is_not_observed (env : Env) (st : SW) (req : Request) (R : Response)
    (hf : env.fetch req = .ok R) (hopen : env.openError = none) :
    (networkFirstStrategy env st req).1 = .ok R ∧
    (cachesMatch st.caches req.url = none → (cacheFirstStrategy env st req).1 = .ok R) := by
  refine ⟨(networkFirstStrategy_success env st req R hf hopen).1, ?_⟩
  intro hmiss
  have hw := (writeThrough_ok_log env ((st.record (.cachesMatch req.url)).record
    (.fetch req.url)) req R hopen).1
  rcases hwt : writeThrough env ((st.record (.cachesMatch req.url)).record
    (.fetch req.url)) req R with ⟨r, st2⟩
  rw [hwt] at hw
  simp only at hw
  subst hw
  rw [cacheFirstStrategy_of_write_ok env st st2 req R () hmiss hf hwt]

/-- A response whose status is not 200 is handed to the caller without touching the
cache store, so no failure of the store can be observed. -/
theorem no_write_no_failure (env : Env) (st : SW) (req : Request) (R : Response)
    (hf : env.fetch req = .ok R) (h200 : R.status ≠ 200) :
    (networkFirstStrategy env st req).1 = .ok R ∧
    (cachesMatch st.caches req.url = none → (cacheFirstStrategy env st req).1 = .ok R) := by
  refine ⟨?_, ?_⟩
  · rw [networkFirstStrategy_of_write_ok env st _ req R () hf
      (writeThrough_other env _ req R h200)]
  · intro hmiss
    rw [cacheFirstStrategy_of_write_ok env st _ req R () hmiss hf
      (writeThrough_other env _ req R h200)]

/-- C11, where the code departs from it: the network answers the prices request
with a 200 response and `caches.open` rejects. The rejection is raised inside the
`try` block, so networkFirstStrategy runs its `catch` block: with an empty cache the
caller gets the 503 offline error, with an older snapshot in the cache the caller
gets that snapshot, and without an Accept header the promise rejects;
cacheFirstStrategy answers a static request with its 503 text. In none of these
cases does the caller receive the network response. A rejected `cache.put` alone
changes nothing. -/
theorem open_failure_replaces_response :
    (envOpenFails pricesUpdated).fetch reqApiPrices = .ok pricesUpdated ∧
    (envOpenFails pricesUpdated).openError = some quotaExceeded ∧
    (networkFirstStrategy (envOpenFails pricesUpdated) swEmpty reqApiPrices).1
      = .ok offlineErrorResponse ∧
    (networkFirstStrategy (envOpenFails pricesUpdated) swWithPrices reqApiPrices).1
      = .ok pricesResponse ∧
    (networkFirstStrategy (envOpenFails pricesUpdated) swEmpty reqApiNoAccept).1
      = .error nullIncludesError ∧
    cachesMatch swEmpty.caches reqStaticScript.url = none ∧
    (cacheFirstStrategy (envOpenFails scriptResponse) swEmpty reqStaticScript).1
      = .ok cacheFirstErrorResponse ∧
    offlineErrorResponse ≠ pricesUpdated ∧
    pricesResponse ≠ pricesUpdated ∧
    cacheFirstErrorResponse ≠ scriptResponse ∧
    (networkFirstStrategy (envPutFails pricesUpdated) swEmpty reqApiPrices).1
      = .ok pricesUpdated ∧
    (cacheFirstStrategy (envPutFails scriptResponse) swEmpty reqStaticScript).1
      = .ok scriptResponse := by
  refine ⟨rfl, rfl, rfl, rfl, rfl, rfl, rfl, by decide, by decide, by decide, rfl, rfl⟩

/-! ## Network failures -/

/-- With an Accept header on the request, a failed network fetch is absorbed: the
listener calls `event.respondWith` and the strategy settles with a response. -/
theorem network_failure_absorbed (env : Env) (st : SW) (req : Request) (accept : String)
    (e : JsError) (hget : req.method = "GET")
    (hacc : Headers.get req.headers "accept" = some accept)
    (hnet : env.fetch req = .error e) :
    ∃ s resp, (fetchListener env st req).1 = .respondWith s (.ok resp) := by
  obtain ⟨hapi, hstatic, hother⟩ := fetchListener_routes env st req hget
  have hnf : ∃ resp, (networkFirstStrategy env st req).1 = .ok resp := by
    rw [networkFirstStrategy_of_fetch_error env st req e hnet]
    unfold networkFirstCatch
    cases cachesMatch (st.record (.fetch req.url)).caches req.url with
    | some c => exact ⟨c, rfl⟩
    | none =>
      by_cases h : includes accept "text/html" = true
      · cases hp : cachesMatch (st.record (.fetch req.url)).caches OFFLINE_URL with
        | some page => exact ⟨page, by simp [hacc, h, hp]⟩
        | none => exact ⟨offlineErrorResponse, by simp [hacc, h, hp]⟩
      · exact ⟨offlineErrorResponse, by simp [hacc, h]⟩
  have hcf : ∃ resp, (cacheFirstStrategy env st req).1 = .ok resp := by
    unfold cacheFirstStrategy
    cases cachesMatch st.caches req.url with
    | some c => exact ⟨c, rfl⟩
    | none => exact ⟨cacheFirstErrorResponse, by simp [hnet]⟩
  obtain ⟨r1, hr1⟩ := hnf
  obtain ⟨r2, hr2⟩ := hcf
  by_cases ha : startsWith req.pathname "/api/" = true
  · exact ⟨.networkFirst, r1, by rw [hapi ha]; simp [respondWith, Strategy.run, hr1]⟩
  · simp only [Bool.not_eq_true] at ha
    by_cases hs : startsWith req.pathname "/static/" = true
    · exact ⟨.cacheFirst, r2, by rw [hstatic ha hs]; simp [respondWith, Strategy.run, hr2]⟩
    · simp only [Bool.not_eq_true] at hs
      rw [hother accept ha hs hacc]
      by_cases h : includes accept "text/html" = true
      · exact ⟨.networkFirst, r1, by simp [h, respondWith, Strategy.run, hr1]⟩
      · exact ⟨.cacheFirst, r2, by simp [h, respondWith, Strategy.run, hr2]⟩

/-- C12, where the code departs from it: a GET request without an Accept header
while the network is down. Under `/api/` with no cache entry, networkFirstStrategy
throws a TypeError inside its `catch` block, so the promise given to
`event.respondWith` rejects and the caller gets an error instead of a response.
Outside `/api/` and `/static/` the listener itself throws before
`event.respondWith`. -/
theorem network_failure_surfaces_without_accept :
    reqApiNoAccept.method = "GET" ∧
    Headers.get reqApiNoAccept.headers "accept" = none ∧
    envOffline.fetch reqApiNoAccept = .error fetchFailed ∧
    cachesMatch swEmpty.caches reqApiNoAccept.url = none ∧
    (fetchListener envOffline swEmpty reqApiNoAccept).1
      = .respondWith .networkFirst (.error nullIncludesError) ∧
    (fetchListener envOffline swWithOfflinePage reqApiNoAccept).1
      = .respondWith .networkFirst (.error nullIncludesError) ∧
    reqManifestNoAccept.method = "GET" ∧
    envOffline.fetch reqManifestNoAccept = .error fetchFailed ∧
    (fetchListener envOffline swWithOfflinePage reqManifestNoAccept).1
      = .threw nullIncludesError := by
  refine ⟨rfl, rfl, rfl, rfl, rfl, rfl, rfl, rfl, rfl⟩

/-! ## Failures during a drain -/

/-- C13, as the code has it: over any storage helpers and any replay outcomes, once
the pending actions have been loaded `syncOfflineData` completes without raising,
whatever each replay and each removal does, and the promise given to
`event.waitUntil` by the sync listener is fulfilled. When the load itself fails, the
outer `catch` logs and rethrows: the drain rejects with that error, having attempted
nothing, and the sync event fails. -/
theorem drain_raises_only_on_load_failure {σ : Type} (store : ActionStore σ)
    (replay : PendingAction → Except JsError Response) (s : SyncState σ) :
    (∀ pending, store.getPendingActions s.db = .ok pending →
      (syncOfflineData store replay s).1 = .ok () ∧
      (syncListener store replay "sync-offline-data" s).1 = some (.ok ())) ∧
    (∀ e, store.getPendingActions s.db = .error e →
      syncOfflineData store replay s = (.error e, s) ∧
      (syncListener store replay "sync-offline-data" s).1 = some (.error e)) := by
  refine ⟨?_, ?_⟩
  · intro pending h
    have h1 : (syncOfflineData store replay s).1 = .ok () := by
      simp only [syncOfflineData, h]
    exact ⟨h1, by simp only [syncListener, ↓reduceIte, h1]⟩
  · intro e h
    have h1 : syncOfflineData store replay s = (.error e, s) := by
      simp only [syncOfflineData, h]
    exact ⟨h1, by simp only [syncListener, ↓reduceIte, h1]⟩

/-- C13 (amended) at a concrete input: three queued actions, the second replay
throws and every removal fails; the drain completes, has attempted all three and
leaves the queue as it was. -/
theorem drain_raises_only_on_load_failure_witness :
    failingRemoveStore.getPendingActions [action1, action2, action3]
      = .ok [action1, action2, action3] ∧
    (syncOfflineData failingRemoveStore replaySecondFails
      (SyncState.start [action1, action2, action3])).1 = .ok () ∧
    (syncListener failingRemoveStore replaySecondFails "sync-offline-data"
      (SyncState.start [action1, action2, action3])).1 = some (.ok ()) ∧
    (syncOfflineData failingRemoveStore replaySecondFails
      (SyncState.start [action1, action2, action3])).2.attempted
      = [action1, action2, action3] ∧
    (syncOfflineData failingRemoveStore replaySecondFails
      (SyncState.start [action1, action2, action3])).2.db
      = [action1, action2, action3] :=
  ⟨rfl,
    ((drain_raises_only_on_load_failure failingRemoveStore replaySecondFails
      (SyncState.start [action1, action2, action3])).1 [action1, action2, action3] rfl).1,
    ((drain_raises_only_on_load_failure failingRemoveStore replaySecondFails
      (SyncState.start [action1, action2, action3])).1 [action1, action2, action3] rfl).2,
    rfl, rfl⟩

/-- C13 as stated fails: when loading the pending actions fails, `syncOfflineData`
rejects with the storage error and the promise the sync listener gives to
`event.waitUntil` is rejected. -/
theorem drain_rejects_on_load_failure :
    failingLoadStore.getPendingActions [action1, action2, action3]
      = .error storageUnavailable ∧
    (syncOfflineData failingLoadStore replayAllSucceed
      (SyncState.start [action1, action2, action3])).1 = .error storageUnavailable ∧
    (syncListener failingLoadStore replayAllSucceed "sync-offline-data"
      (SyncState.start [action1, action2, action3])).1 = some (.error storageUnavailable) ∧
    (syncOfflineData failingLoadStore replayAllSucceed
      (SyncState.start [action1, action2, action3])).1 ≠ .ok () := by
  refine ⟨rfl, rfl, rfl, ?_⟩
  intro h
  cases h

end ServiceWorker
